import Mathlib

/-!
Shallow embedding of the k8s-health-monitor aggregation engine
(src/k8s_health_monitor/main.py, process_manager.py,
process_compose_manager.py).

External data sources (the Kubernetes read API, the host metrics
provider, the remote process-compose supervisor, raw sockets and HTTP)
are modelled as explicit inputs: a call that can raise is an
`Except String _` value (`error e` is a raised exception with text `e`),
a call that returns a plain value is that value.  Python floats are
modelled as exact rationals (`ℚ`); for the comparisons the claims
exercise (integer percentages against the constant thresholds, and pod
counts bounded by the 50-element pod view against `total * 0.9`, where
`100 * 0.9` also evaluates to exactly `90.0` in IEEE double) the IEEE
computation and the rational one agree.  Python truthiness of a list is
modelled by `!l.isEmpty`.
-/

set_option maxRecDepth 8192

/-- Character-list test: `needle` is a leading block of `hay`
(models Python string operations used with `in` / `startswith`). -/
def charsLead : List Char → List Char → Bool
  | [], _ => true
  | _ :: _, [] => false
  | a :: as, b :: bs => a == b && charsLead as bs

/-- Character-list test: `needle` occurs contiguously in `hay`. -/
def charsInside (needle : List Char) : List Char → Bool
  | [] => needle.isEmpty
  | c :: cs => charsLead needle (c :: cs) || charsInside needle cs

/-- Models Python `needle in hay` on strings. -/
def strIn (needle hay : String) : Bool :=
  charsInside needle.toList hay.toList

/-- Models Python `s.startswith(p)`. -/
def strStarts (s p : String) : Bool :=
  charsLead p.toList s.toList

/-- HealthStatus record produced by every probe
(main.py lines 50-54; the wall-clock timestamp field is omitted:
it is an effectful read the claims never mention). -/
structure HealthStatus where
  service : String
  status : String
  message : String
deriving DecidableEq

/-- A pod as the probes see it: only its phase is inspected
(pod.status.phase). -/
structure KPod where
  phase : String
deriving DecidableEq

/-- A service object; the probes only test that the lookup returned a
non-empty item list. -/
structure KService where
  name : String
deriving DecidableEq

/-- A node condition (condition.type, condition.status). -/
structure KNodeCondition where
  ctype : String
  cstatus : String
deriving DecidableEq

/-- A node as the aggregators see it: its condition list. -/
structure KNode where
  conditions : List KNodeCondition
deriving DecidableEq

/-- The monitor's own pod as the registry probe sees it: phase and the
container image names of its spec. -/
structure OwnPod where
  phase : String
  images : List String
deriving DecidableEq

/-- A pod as the `/pods` view sees it: name, phase and the per-container
ready flags (pod.status.container_statuses; `[]` models a None/empty
container-status list, both falsy in Python). -/
structure FullPod where
  name : String
  phase : String
  container_statuses : List Bool
deriving DecidableEq

/-- The `/pods` view row (PodStatus): the fields the aggregators read. -/
structure PodView where
  name : String
  ready : Bool
deriving DecidableEq

/-- Outcome of one HTTP GET against a candidate registry URL:
a response with a status code, or a raised exception. -/
inductive RegFetch where
  | resp (code : Int)
  | exn (msg : String)
deriving DecidableEq

/-- Python `items and all(pod.status.phase == "Running" for pod in items)`
as a Bool (empty list is falsy). -/
def podsAllRunning (pods : List KPod) : Bool :=
  !pods.isEmpty && pods.all (fun p => p.phase == "Running")

/-- ArgoCD probe (main.py lines 441-468): pods by label selector and the
argocd-server service lookup; any raised exception is converted to an
error status. -/
def argocd_probe (podsR : Except String (List KPod))
    (svcR : Except String (List KService)) : HealthStatus :=
  match podsR with
  | .error e => ⟨"ArgoCD", "error", "GitOps check failed: " ++ e⟩
  | .ok pods =>
    match svcR with
    | .error e => ⟨"ArgoCD", "error", "GitOps check failed: " ++ e⟩
    | .ok svcs =>
      if podsAllRunning pods && !svcs.isEmpty then
        ⟨"ArgoCD", "healthy",
          "GitOps controller ready (" ++ toString pods.length ++ " pods)"⟩
      else
        ⟨"ArgoCD", "unhealthy", "GitOps controller not ready"⟩

/-- Gitea probe (main.py lines 471-502): app pods, the gitea-http service
and the postgresql pods, fetched in that order inside one try block. -/
def gitea_probe (podsR : Except String (List KPod))
    (svcR : Except String (List KService))
    (dbR : Except String (List KPod)) : HealthStatus :=
  match podsR with
  | .error e => ⟨"Gitea", "error", "Git server check failed: " ++ e⟩
  | .ok pods =>
    match svcR with
    | .error e => ⟨"Gitea", "error", "Git server check failed: " ++ e⟩
    | .ok svcs =>
      match dbR with
      | .error e => ⟨"Gitea", "error", "Git server check failed: " ++ e⟩
      | .ok dbPods =>
        if podsAllRunning pods && podsAllRunning dbPods && !svcs.isEmpty then
          ⟨"Gitea", "healthy",
            "Git server ready (app: " ++ toString pods.length ++
              ", db: " ++ toString dbPods.length ++ " pods)"⟩
        else
          ⟨"Gitea", "unhealthy", "Git server not ready"⟩

/-- Traefik probe (main.py lines 505-532): same shape as the ArgoCD
probe with the kube-system namespace selectors. -/
def traefik_probe (podsR : Except String (List KPod))
    (svcR : Except String (List KService)) : HealthStatus :=
  match podsR with
  | .error e => ⟨"Traefik", "error", "Ingress check failed: " ++ e⟩
  | .ok pods =>
    match svcR with
    | .error e => ⟨"Traefik", "error", "Ingress check failed: " ++ e⟩
    | .ok svcs =>
      if podsAllRunning pods && !svcs.isEmpty then
        ⟨"Traefik", "healthy",
          "Ingress controller ready (" ++ toString pods.length ++ " pods)"⟩
      else
        ⟨"Traefik", "unhealthy", "Ingress controller not ready"⟩

/-- cert-manager probe (main.py lines 535-565): three pod selectors
(controller, webhook, cainjector), all required non-empty and
all-Running. -/
def cert_manager_probe (certR : Except String (List KPod))
    (webhookR : Except String (List KPod))
    (cainjectorR : Except String (List KPod)) : HealthStatus :=
  match certR with
  | .error e => ⟨"cert-manager", "error", "TLS manager check failed: " ++ e⟩
  | .ok certPods =>
    match webhookR with
    | .error e => ⟨"cert-manager", "error", "TLS manager check failed: " ++ e⟩
    | .ok webhookPods =>
      match cainjectorR with
      | .error e => ⟨"cert-manager", "error", "TLS manager check failed: " ++ e⟩
      | .ok cainjectorPods =>
        if podsAllRunning certPods && podsAllRunning webhookPods &&
            podsAllRunning cainjectorPods then
          ⟨"cert-manager", "healthy",
            "TLS certificate manager ready (" ++
              toString (certPods.length + webhookPods.length +
                cainjectorPods.length) ++ " pods)"⟩
        else
          ⟨"cert-manager", "unhealthy", "TLS certificate manager not ready"⟩

/-- The registry probe's image-prefix test (main.py lines 572-579): the
first own pod is Running and some container image starts with the
internal registry host. -/
def registry_working (items : List OwnPod) : Bool :=
  match items with
  | [] => false
  | pod :: _ =>
    pod.phase == "Running" &&
      pod.images.any (fun img => strStarts img "registry.localhost:5001")

/-- The fallback URL loop of the registry probe (main.py lines 593-612):
accept the first response with code 200 or 401; a raised per-URL
exception or any other code moves on to the next URL; the for-else
branch emits the fixed inconclusive warning. -/
def registry_try_urls : List RegFetch → HealthStatus
  | [] =>
    ⟨"Local Registry", "warning",
      "Registry not directly accessible (may still be working)"⟩
  | f :: rest =>
    match f with
    | .resp code =>
      if code == 200 || code == 401 then
        ⟨"Local Registry", "healthy", "Registry accessible via HTTP"⟩
      else
        registry_try_urls rest
    | .exn _ => registry_try_urls rest

/-- Local Registry probe (main.py lines 568-619): pod-image check first;
else the HTTP fallback; an exception escaping the URL loop (listing the
monitor pods, or setting up the HTTP client) is downgraded to a warning
with the exception text truncated to 80 characters. -/
def registry_probe (podsR : Except String (List OwnPod))
    (clientErr : Option String) (f1 f2 : RegFetch) : HealthStatus :=
  match podsR with
  | .error e =>
    ⟨"Local Registry", "warning", "Registry check inconclusive: " ++ e.take 80⟩
  | .ok items =>
    if registry_working items then
      ⟨"Local Registry", "healthy",
        "Registry operational (image pulled successfully)"⟩
    else
      match clientErr with
      | some e =>
        ⟨"Local Registry", "warning",
          "Registry check inconclusive: " ++ e.take 80⟩
      | none => registry_try_urls [f1, f2]

/-- The k3d LoadBalancer probe's exception handler (main.py lines
651-666): warning when the gateway hostname text occurs in the raised
error, healthy otherwise. -/
def lb_exception_case (e : String) : HealthStatus :=
  if strIn "host.k3d.internal" e then
    ⟨"k3d LoadBalancer", "warning", "k3d networking check inconclusive"⟩
  else
    ⟨"k3d LoadBalancer", "healthy",
      "LoadBalancer operational (we\x27re running in k3d)"⟩

/-- k3d LoadBalancer probe (main.py lines 621-666): connect_ex result
(or a raised exception), then — only when the result is non-zero — the
gethostbyname call, whose returned address is used for Python
truthiness; either call raising lands in the shared handler. -/
def lb_probe (connectR : Except String Int)
    (dnsR : Except String String) : HealthStatus :=
  match connectR with
  | .error e => lb_exception_case e
  | .ok result =>
    if result == 0 then
      ⟨"k3d LoadBalancer", "healthy", "k3d networking operational"⟩
    else
      match dnsR with
      | .error e => lb_exception_case e
      | .ok addr =>
        if !addr.isEmpty then
          ⟨"k3d LoadBalancer", "healthy", "k3d networking operational"⟩
        else
          ⟨"k3d LoadBalancer", "unhealthy", "k3d networking not accessible"⟩

/-- One outcome of every external call the six probes make during a
single run of get_services_health. -/
structure ClusterInputs where
  argocd_pods : Except String (List KPod)
  argocd_svc : Except String (List KService)
  gitea_pods : Except String (List KPod)
  gitea_svc : Except String (List KService)
  git_db_pods : Except String (List KPod)
  traefik_pods : Except String (List KPod)
  traefik_svc : Except String (List KService)
  cert_pods : Except String (List KPod)
  cert_webhook_pods : Except String (List KPod)
  cert_cainjector_pods : Except String (List KPod)
  monitoring_pods : Except String (List OwnPod)
  registry_client_err : Option String
  registry_fetch_localhost : RegFetch
  registry_fetch_internal : RegFetch
  lb_connect : Except String Int
  lb_dns : Except String String

/-- get_services_health (main.py lines 436-668): the six probes in
declaration order. -/
def get_services_health (i : ClusterInputs) : List HealthStatus :=
  [argocd_probe i.argocd_pods i.argocd_svc,
   gitea_probe i.gitea_pods i.gitea_svc i.git_db_pods,
   traefik_probe i.traefik_pods i.traefik_svc,
   cert_manager_probe i.cert_pods i.cert_webhook_pods i.cert_cainjector_pods,
   registry_probe i.monitoring_pods i.registry_client_err
     i.registry_fetch_localhost i.registry_fetch_internal,
   lb_probe i.lb_connect i.lb_dns]

/-- Node readiness (main.py lines 333-335, 373-374): some condition has
type Ready with status True. -/
def node_is_ready (n : KNode) : Bool :=
  n.conditions.any (fun c => c.ctype == "Ready" && c.cstatus == "True")

/-- The `/cluster` health judgment (main.py lines 333-347) over the
fetched node list, the all-namespaces pod list and the probe results. -/
def cluster_healthy (nodes : List KNode) (pods : List FullPod)
    (services : List HealthStatus) : Bool :=
  let nodes_ready := (nodes.filter node_is_ready).length
  let pods_running := (pods.filter (fun p => p.phase == "Running")).length
  let services_healthy := (services.filter (fun s => s.status == "healthy")).length
  nodes_ready == nodes.length && decide (0 < pods_running) &&
    decide (0 < services_healthy)

/-- Pod readiness in the `/pods` view (main.py lines 405-406): a
non-empty container-status list with every container ready (an empty or
missing list is falsy, hence not ready). -/
def pod_view_ready (p : FullPod) : Bool :=
  !p.container_statuses.isEmpty && p.container_statuses.all id

/-- The `/pods` view (main.py lines 394-423): the first `limit` pods
projected to view rows and sorted by name ascending.  The default limit
is 50. -/
def pods_status_view (pods : List FullPod) (limit : Nat) : List PodView :=
  (((pods.take limit).map (fun p => ⟨p.name, pod_view_ready p⟩) : List PodView)).mergeSort
    (fun a b => a.name ≤ b.name)

/-- The `/gitops` platform judgment over the roll-up counts
(main.py lines 691-693); the float comparison
running_pods >= total_pods * 0.9 is taken over exact rationals (for the
counts this endpoint can produce — the pod view is capped at 50 — the
IEEE-double computation and the rational one coincide). -/
def platform_healthy_cond (healthy_services total_services ready_nodes
    total_nodes running_pods total_pods : Nat) : Bool :=
  healthy_services == total_services && ready_nodes == total_nodes &&
    decide ((total_pods : ℚ) * (9 / 10) ≤ (running_pods : ℚ))

/-- The `/gitops` roll-up (main.py lines 674-693): probe results, node
view and the `/pods` view called with its default limit of 50, reduced
to the platform judgment. -/
def gitops_platform_healthy (services : List HealthStatus)
    (nodes : List KNode) (pods : List FullPod) : Bool :=
  let pods_data := pods_status_view pods 50
  let healthy_services := (services.filter (fun s => s.status == "healthy")).length
  let running_pods := (pods_data.filter (fun p => p.ready)).length
  let ready_nodes := (nodes.filter node_is_ready).length
  platform_healthy_cond healthy_services services.length ready_nodes
    nodes.length running_pods pods_data.length

/-- The running/total pod counts the `/gitops` endpoint reports
(main.py lines 684-685), computed from the `/pods` view it fetches with
the default limit of 50. -/
def gitops_pod_counts (pods : List FullPod) : Nat × Nat :=
  let pods_data := pods_status_view pods 50
  ((pods_data.filter (fun p => p.ready)).length, pods_data.length)

/-- Modelled from the spec (section 4.4): the pod counts over the FULL
pod-readiness view, a pod being ready when every container in it
reports ready.  Stated only to compare with `gitops_pod_counts`, which
is what the code computes. -/
def gitops_pod_counts_spec (pods : List FullPod) : Nat × Nat :=
  ((pods.filter (fun p => p.container_statuses.all id)).length, pods.length)

/-- The fixed component mapping of the `/gitops` response
(main.py lines 707-714): six role keys, each bound to the first probe
result whose service name matches, else the None sentinel. -/
def gitops_components (services : List HealthStatus) :
    List (String × Option HealthStatus) :=
  [("gitops", services.find? (fun s => s.service == "ArgoCD")),
   ("git_repository", services.find? (fun s => s.service == "Gitea")),
   ("ingress", services.find? (fun s => s.service == "Traefik")),
   ("tls_manager", services.find? (fun s => s.service == "cert-manager")),
   ("registry", services.find? (fun s => s.service == "Local Registry")),
   ("loadbalancer", services.find? (fun s => s.service == "k3d LoadBalancer"))]

/-- The probe service name each component role matches against. -/
def role_service_name : String → String
  | "gitops" => "ArgoCD"
  | "git_repository" => "Gitea"
  | "ingress" => "Traefik"
  | "tls_manager" => "cert-manager"
  | "registry" => "Local Registry"
  | "loadbalancer" => "k3d LoadBalancer"
  | _ => ""

/-- Host resource snapshot (process_manager.py lines 29-38); float
fields as exact rationals, fields the alert engine never reads omitted. -/
structure SystemResources where
  cpu_percent : ℚ
  cpu_count : Nat
  memory_percent : ℚ
  disk_usage_percent : ℚ
  load_average : List ℚ
deriving DecidableEq

/-- A resource alert (the dict literals of check_resource_alerts). -/
structure Alert where
  atype : String
  severity : String
  message : String
deriving DecidableEq

/-- check_resource_alerts (process_manager.py lines 257-303) on a
successfully obtained snapshot: the four threshold checks, appending in
source order. -/
def check_resource_alerts (r : SystemResources) : List Alert :=
  (if 80 < r.cpu_percent then
    [⟨"cpu", if r.cpu_percent < 90 then "warning" else "critical",
      "High CPU usage: " ++ toString r.cpu_percent ++ "%"⟩]
   else []) ++
  (if 80 < r.memory_percent then
    [⟨"memory", if r.memory_percent < 90 then "warning" else "critical",
      "High memory usage: " ++ toString r.memory_percent ++ "%"⟩]
   else []) ++
  (if 85 < r.disk_usage_percent then
    [⟨"disk", if r.disk_usage_percent < 95 then "warning" else "critical",
      "High disk usage: " ++ toString r.disk_usage_percent ++ "%"⟩]
   else []) ++
  (if 0 < r.load_average.length ∧ (r.cpu_count : ℚ) * 2 < r.load_average.headD 0 then
    [⟨"load", "warning",
      "High load average: " ++ toString (r.load_average.headD 0)⟩]
   else [])

/-- The fixed restart allow-list (process_manager.py line 234). -/
def allowed_processes : List String := ["uvicorn", "gunicorn", "python", "node"]

/-- How the psutil.Process lookup of restart_process can fail. -/
inductive PsLookupErr where
  | noSuchProcess
  | accessDenied
  | other (msg : String)
deriving DecidableEq

/-- ProcessManager.restart_process (process_manager.py lines 227-255):
a result dict in every case, never a raised exception.  Inputs: the
outcome of resolving the PID to a process name, and whether the
graceful wait timed out (forcing the kill path). -/
def manager_restart_process (pid : Int) (lookup : Except PsLookupErr String)
    (waitTimedOut : Bool) : String × String :=
  match lookup with
  | .error .noSuchProcess =>
    ("error", "Process " ++ toString pid ++ " not found")
  | .error .accessDenied =>
    ("error", "Access denied to process " ++ toString pid)
  | .error (.other e) =>
    ("error", "Failed to restart process " ++ toString pid ++ ": " ++ e)
  | .ok procName =>
    if allowed_processes.contains procName then
      if waitTimedOut then
        ("success", "Process " ++ toString pid ++ " (" ++ procName ++
          ") killed after timeout")
      else
        ("success", "Process " ++ toString pid ++ " (" ++ procName ++
          ") terminated successfully")
    else
      ("error", "Restarting " ++ procName ++ " not allowed")

/-- Rendering of str(e) for a FastAPI HTTPException, as re-raised by the
endpoint's blanket handler (the HTTP status code is the part the claims
concern). -/
def http_exception_text (code : Nat) (detail : String) : String :=
  toString code ++ ": " ++ detail

/-- The POST /processes/pid/restart endpoint (main.py lines 837-847):
ok = a JSON result, error = an HTTPException with status code and
detail.  The HTTPException(400) raised for a manager rejection is
itself an Exception, so the blanket `except Exception` of the same
try block catches it and re-raises HTTPException(500, str(e)). -/
def restart_process_endpoint (pid : Int) (lookup : Except PsLookupErr String)
    (waitTimedOut : Bool) : Except (Nat × String) (String × String) :=
  let result := manager_restart_process pid lookup waitTimedOut
  if result.1 == "error" then
    .error (500, http_exception_text 400 result.2)
  else
    .ok result

/-- A remote process-compose process as get_process_health reads it
(process_compose_manager.py lines 15-25, restricted to the fields the
health classification uses). -/
structure PCProcess where
  name : String
  status : String
deriving DecidableEq

/-- ProcessComposeManager.get_process_health
(process_compose_manager.py lines 182-208).  `none` models the remote
supervisor being unreachable (get_project_info returned None); `some
procs` the fetched process list, from which get_project_info derives
running_processes as the count of status Running. -/
def get_process_health (project : Option (List PCProcess)) : String × String :=
  match project with
  | none => ("error", "Process-compose not available")
  | some procs =>
    let total_processes := procs.length
    let running_processes := (procs.filter (fun p => p.status == "Running")).length
    let failed_processes :=
      procs.filter (fun p => p.status == "Failed" || p.status == "Crashed")
    if 0 < failed_processes.length then
      ("unhealthy",
        toString failed_processes.length ++ " processes failed: " ++
          String.intercalate ", " (failed_processes.map (fun p => p.name)))
    else if running_processes == total_processes then
      ("healthy", "All " ++ toString total_processes ++ " processes running")
    else
      ("degraded",
        toString running_processes ++ "/" ++ toString total_processes ++
          " processes running")

/-! Shared helper lemmas. -/

/-- Appending to a non-empty string stays non-empty. -/
theorem concat_ne_empty (s t : String) (h : s ≠ "") : s ++ t ≠ "" := by
  intro hc
  apply h
  have hl := congrArg String.length hc
  rw [String.length_append, show ("" : String).length = 0 from rfl] at hl
  have h0 : s.length = 0 := by omega
  cases s with
  | mk data =>
    have hd : data = [] := List.length_eq_zero.mp h0
    subst hd
    rfl

/-- The exact-rational reading of `running_pods >= total_pods * 0.9` is
the integer comparison 9 * total <= 10 * running. -/
theorem pod_tolerance_iff (rp tp : Nat) :
    ((tp : ℚ) * (9 / 10) ≤ (rp : ℚ)) ↔ 9 * tp ≤ 10 * rp := by
  rw [← mul_div_assoc, div_le_iff₀ (by norm_num : (0 : ℚ) < 10)]
  rw [show ((tp : ℚ) * 9) = ((9 * tp : ℕ) : ℚ) by push_cast; ring,
      show ((rp : ℚ) * 10) = ((10 * rp : ℕ) : ℚ) by push_cast; ring]
  exact Nat.cast_le

/-- Sorting does not change the view's length. -/
theorem pods_status_view_length (pods : List FullPod) (limit : Nat) :
    (pods_status_view pods limit).length = min limit pods.length := by
  unfold pods_status_view
  rw [(List.mergeSort_perm _ _).length_eq, List.length_map, List.length_take]

/-- Sorting does not change the view's ready count. -/
theorem pods_status_view_ready_count (pods : List FullPod) (limit : Nat) :
    ((pods_status_view pods limit).filter (fun p => p.ready)).length =
      ((pods.take limit).filter pod_view_ready).length := by
  unfold pods_status_view
  rw [← List.countP_eq_length_filter, ← List.countP_eq_length_filter]
  rw [(List.mergeSort_perm _ _).countP_eq, List.countP_map]
  rfl

/-- The `/gitops` pod counts are those of the 50-truncated pod view. -/
theorem gitops_pod_counts_eq (pods : List FullPod) :
    gitops_pod_counts pods =
      (((pods.take 50).filter pod_view_ready).length, min 50 pods.length) := by
  show (((pods_status_view pods 50).filter (fun p => p.ready)).length,
      (pods_status_view pods 50).length) = _
  rw [pods_status_view_ready_count, pods_status_view_length]

/-- C1: the `/gitops` platform judgment is true iff healthy services
equal total services, ready nodes equal total nodes, and running pods
are at least total pods times 0.9; the pod boundary is inclusive at
exactly 90 percent (91/100 and 90/100 pass, 89/100 fails), and any
service list containing a non-healthy service makes the judgment false
whatever the node and pod data. -/
theorem platform_healthy_characterization :
    (∀ hs ts rn tn rp tp : Nat,
        platform_healthy_cond hs ts rn tn rp tp = true ↔
          (hs = ts ∧ rn = tn ∧ (tp : ℚ) * (9 / 10) ≤ (rp : ℚ))) ∧
    platform_healthy_cond 6 6 3 3 91 100 = true ∧
    platform_healthy_cond 6 6 3 3 90 100 = true ∧
    platform_healthy_cond 6 6 3 3 89 100 = false ∧
    (∀ (services : List HealthStatus) (nodes : List KNode)
        (pods : List FullPod),
        (∃ s ∈ services, s.status ≠ "healthy") →
          gitops_platform_healthy services nodes pods = false) := by
  refine ⟨?_, ?_, ?_, ?_, ?_⟩
  · intro hs ts rn tn rp tp
    simp [platform_healthy_cond, and_assoc]
  · simp only [platform_healthy_cond, Bool.and_eq_true, beq_iff_eq,
      decide_eq_true_eq]
    norm_num
  · simp only [platform_healthy_cond, Bool.and_eq_true, beq_iff_eq,
      decide_eq_true_eq]
    norm_num
  · rw [Bool.eq_false_iff]
    simp only [platform_healthy_cond, ne_eq, Bool.and_eq_true, beq_iff_eq,
      decide_eq_true_eq, not_and]
    intro _ h
    push_cast at h
    norm_num at h
  · intro services nodes pods h
    obtain ⟨s, hmem, hne⟩ := h
    have hlt :
        ((services.filter (fun s => s.status == "healthy")).length)
          < services.length := by
      rw [List.length_filter_lt_length_iff_exists]
      exact ⟨s, hmem, by simpa using hne⟩
    rw [Bool.eq_false_iff]
    simp only [gitops_platform_healthy, platform_healthy_cond, ne_eq,
      Bool.and_eq_true, beq_iff_eq, decide_eq_true_eq, not_and]
    intro h1
    exact absurd h1.1 (Nat.ne_of_lt hlt)

/-- C1 witness: a single unhealthy service forces the judgment false. -/
theorem platform_healthy_characterization_instance :
    gitops_platform_healthy
      [⟨"ArgoCD", "unhealthy", "GitOps controller not ready"⟩] [] [] = false :=
  platform_healthy_characterization.2.2.2.2 _ _ _
    ⟨⟨"ArgoCD", "unhealthy", "GitOps controller not ready"⟩, by decide, by decide⟩

/-- C2: the `/cluster` judgment is true iff the count of nodes with a
Ready/True condition equals the node total, there is at least one
Running pod, and at least one healthy service; 3/3 ready nodes with one
running pod and one healthy service pass; zero running pods fail
whatever the nodes and services. -/
theorem cluster_healthy_characterization :
    (∀ (nodes : List KNode) (pods : List FullPod)
        (services : List HealthStatus),
        cluster_healthy nodes pods services = true ↔
          ((nodes.filter node_is_ready).length = nodes.length ∧
           0 < (pods.filter (fun p => p.phase == "Running")).length ∧
           0 < (services.filter (fun s => s.status == "healthy")).length)) ∧
    cluster_healthy [⟨[⟨"Ready", "True"⟩]⟩, ⟨[⟨"Ready", "True"⟩]⟩,
        ⟨[⟨"Ready", "True"⟩]⟩] [⟨"p", "Running", [true]⟩]
        [⟨"ArgoCD", "healthy", "ok"⟩] = true ∧
    (∀ (nodes : List KNode) (pods : List FullPod)
        (services : List HealthStatus),
        (pods.filter (fun p => p.phase == "Running")).length = 0 →
          cluster_healthy nodes pods services = false) := by
  refine ⟨?_, by decide, ?_⟩
  · intro nodes pods services
    simp [cluster_healthy, and_assoc]
  · intro nodes pods services h
    simp [cluster_healthy, h]

/-- C2 witness: zero running pods force the cluster judgment false. -/
theorem cluster_healthy_characterization_instance :
    cluster_healthy [⟨[⟨"Ready", "True"⟩]⟩] [] [] = false :=
  cluster_healthy_characterization.2.2 _ _ _ (by decide)

/-- Counting over one conditional alert block. -/
theorem countP_ite_singleton (c : Prop) [Decidable c] (a : Alert)
    (p : Alert → Bool) :
    List.countP p (if c then [a] else []) = if c ∧ p a then 1 else 0 := by
  by_cases h : c <;> by_cases hp : p a <;>
    simp [h, hp, List.countP_cons]

/-- C3: one CPU alert exactly when cpu_percent exceeds 80 (warning below
90, critical otherwise); same for memory at 80/90 and disk at 85/95;
one load alert, always warning and never critical, exactly when the
1-minute load strictly exceeds twice the CPU count — in particular
cpu_count 4 with load 8.0 emits nothing and with load 8.1 emits exactly
one warning load alert. -/
theorem resource_alerts_thresholds (r : SystemResources) :
    ((check_resource_alerts r).countP (fun a => a.atype == "cpu") =
      if 80 < r.cpu_percent then 1 else 0) ∧
    ((check_resource_alerts r).countP
        (fun a => a.atype == "cpu" && a.severity == "warning") =
      if 80 < r.cpu_percent ∧ r.cpu_percent < 90 then 1 else 0) ∧
    ((check_resource_alerts r).countP
        (fun a => a.atype == "cpu" && a.severity == "critical") =
      if 80 < r.cpu_percent ∧ ¬ r.cpu_percent < 90 then 1 else 0) ∧
    ((check_resource_alerts r).countP (fun a => a.atype == "memory") =
      if 80 < r.memory_percent then 1 else 0) ∧
    ((check_resource_alerts r).countP
        (fun a => a.atype == "memory" && a.severity == "warning") =
      if 80 < r.memory_percent ∧ r.memory_percent < 90 then 1 else 0) ∧
    ((check_resource_alerts r).countP
        (fun a => a.atype == "memory" && a.severity == "critical") =
      if 80 < r.memory_percent ∧ ¬ r.memory_percent < 90 then 1 else 0) ∧
    ((check_resource_alerts r).countP (fun a => a.atype == "disk") =
      if 85 < r.disk_usage_percent then 1 else 0) ∧
    ((check_resource_alerts r).countP
        (fun a => a.atype == "disk" && a.severity == "warning") =
      if 85 < r.disk_usage_percent ∧ r.disk_usage_percent < 95 then 1 else 0) ∧
    ((check_resource_alerts r).countP
        (fun a => a.atype == "disk" && a.severity == "critical") =
      if 85 < r.disk_usage_percent ∧ ¬ r.disk_usage_percent < 95 then 1
      else 0) ∧
    ((check_resource_alerts r).countP (fun a => a.atype == "load") =
      if 0 < r.load_average.length ∧
          (r.cpu_count : ℚ) * 2 < r.load_average.headD 0 then 1 else 0) ∧
    ((check_resource_alerts r).countP
        (fun a => a.atype == "load" && a.severity == "warning") =
      if 0 < r.load_average.length ∧
          (r.cpu_count : ℚ) * 2 < r.load_average.headD 0 then 1 else 0) ∧
    ((check_resource_alerts r).countP
        (fun a => a.atype == "load" && a.severity == "critical") = 0) ∧
    check_resource_alerts ⟨0, 4, 0, 0, [8, 0, 0]⟩ = [] ∧
    (check_resource_alerts ⟨0, 4, 0, 0, [81 / 10, 0, 0]⟩).map
        (fun a => (a.atype, a.severity)) = [("load", "warning")] := by
  refine ⟨?_, ?_, ?_, ?_, ?_, ?_, ?_, ?_, ?_, ?_, ?_, ?_, ?_, ?_⟩
  · simp [check_resource_alerts, List.countP_append, countP_ite_singleton]
  · by_cases h90 : r.cpu_percent < 90 <;>
      simp [check_resource_alerts, List.countP_append, countP_ite_singleton,
        h90, and_assoc]
  · by_cases h90 : r.cpu_percent < 90 <;>
      simp [check_resource_alerts, List.countP_append, countP_ite_singleton,
        h90, and_assoc]
  · simp [check_resource_alerts, List.countP_append, countP_ite_singleton]
  · by_cases h90 : r.memory_percent < 90 <;>
      simp [check_resource_alerts, List.countP_append, countP_ite_singleton,
        h90, and_assoc]
  · by_cases h90 : r.memory_percent < 90 <;>
      simp [check_resource_alerts, List.countP_append, countP_ite_singleton,
        h90, and_assoc]
  · simp [check_resource_alerts, List.countP_append, countP_ite_singleton]
  · by_cases h95 : r.disk_usage_percent < 95 <;>
      simp [check_resource_alerts, List.countP_append, countP_ite_singleton,
        h95, and_assoc]
  · by_cases h95 : r.disk_usage_percent < 95 <;>
      simp [check_resource_alerts, List.countP_append, countP_ite_singleton,
        h95, and_assoc]
  · simp [check_resource_alerts, List.countP_append, countP_ite_singleton]
  · simp [check_resource_alerts, List.countP_append, countP_ite_singleton]
  · simp [check_resource_alerts, List.countP_append, countP_ite_singleton]
  · norm_num [check_resource_alerts]
  · norm_num [check_resource_alerts]

/-- The per-probe contract: fixed service name, status in the taxonomy,
non-empty message. -/
def probe_ok (name : String) (h : HealthStatus) : Prop :=
  h.service = name ∧
    (h.status = "healthy" ∨ h.status = "unhealthy" ∨ h.status = "warning" ∨
      h.status = "error") ∧
    h.message ≠ ""

theorem argocd_probe_ok (p : Except String (List KPod))
    (s : Except String (List KService)) :
    probe_ok "ArgoCD" (argocd_probe p s) := by
  unfold probe_ok argocd_probe
  rcases p with e | pods
  · dsimp only
    exact ⟨rfl, Or.inr (Or.inr (Or.inr rfl)), concat_ne_empty _ _ (by decide)⟩
  · rcases s with e | svcs
    · dsimp only
      exact ⟨rfl, Or.inr (Or.inr (Or.inr rfl)),
        concat_ne_empty _ _ (by decide)⟩
    · dsimp only
      split
      · exact ⟨rfl, Or.inl rfl,
          concat_ne_empty _ _ (concat_ne_empty _ _ (by decide))⟩
      · exact ⟨rfl, Or.inr (Or.inl rfl), by decide⟩

theorem gitea_probe_ok (p : Except String (List KPod))
    (s : Except String (List KService)) (d : Except String (List KPod)) :
    probe_ok "Gitea" (gitea_probe p s d) := by
  unfold probe_ok gitea_probe
  rcases p with e | pods
  · dsimp only
    exact ⟨rfl, Or.inr (Or.inr (Or.inr rfl)), concat_ne_empty _ _ (by decide)⟩
  · rcases s with e | svcs
    · dsimp only
      exact ⟨rfl, Or.inr (Or.inr (Or.inr rfl)),
        concat_ne_empty _ _ (by decide)⟩
    · rcases d with e | dbPods
      · dsimp only
        exact ⟨rfl, Or.inr (Or.inr (Or.inr rfl)),
          concat_ne_empty _ _ (by decide)⟩
      · dsimp only
        split
        · exact ⟨rfl, Or.inl rfl,
            concat_ne_empty _ _ (concat_ne_empty _ _ (concat_ne_empty _ _
              (concat_ne_empty _ _ (by decide))))⟩
        · exact ⟨rfl, Or.inr (Or.inl rfl), by decide⟩

theorem traefik_probe_ok (p : Except String (List KPod))
    (s : Except String (List KService)) :
    probe_ok "Traefik" (traefik_probe p s) := by
  unfold probe_ok traefik_probe
  rcases p with e | pods
  · dsimp only
    exact ⟨rfl, Or.inr (Or.inr (Or.inr rfl)), concat_ne_empty _ _ (by decide)⟩
  · rcases s with e | svcs
    · dsimp only
      exact ⟨rfl, Or.inr (Or.inr (Or.inr rfl)),
        concat_ne_empty _ _ (by decide)⟩
    · dsimp only
      split
      · exact ⟨rfl, Or.inl rfl,
          concat_ne_empty _ _ (concat_ne_empty _ _ (by decide))⟩
      · exact ⟨rfl, Or.inr (Or.inl rfl), by decide⟩

theorem cert_manager_probe_ok (c w j : Except String (List KPod)) :
    probe_ok "cert-manager" (cert_manager_probe c w j) := by
  unfold probe_ok cert_manager_probe
  rcases c with e | certPods
  · dsimp only
    exact ⟨rfl, Or.inr (Or.inr (Or.inr rfl)), concat_ne_empty _ _ (by decide)⟩
  · rcases w with e | webhookPods
    · dsimp only
      exact ⟨rfl, Or.inr (Or.inr (Or.inr rfl)),
        concat_ne_empty _ _ (by decide)⟩
    · rcases j with e | cainjectorPods
      · dsimp only
        exact ⟨rfl, Or.inr (Or.inr (Or.inr rfl)),
          concat_ne_empty _ _ (by decide)⟩
      · dsimp only
        split
        · exact ⟨rfl, Or.inl rfl,
            concat_ne_empty _ _ (concat_ne_empty _ _ (by decide))⟩
        · exact ⟨rfl, Or.inr (Or.inl rfl), by decide⟩

theorem registry_try_urls_ok (l : List RegFetch) :
    probe_ok "Local Registry" (registry_try_urls l) := by
  induction l with
  | nil => exact ⟨rfl, Or.inr (Or.inr (Or.inl rfl)), by decide⟩
  | cons f rest ih =>
    cases f with
    | resp code =>
      show probe_ok "Local Registry"
        (if code == 200 || code == 401 then
          ⟨"Local Registry", "healthy", "Registry accessible via HTTP"⟩
        else registry_try_urls rest)
      split
      · exact ⟨rfl, Or.inl rfl, by decide⟩
      · exact ih
    | exn m => exact ih

theorem registry_probe_ok (podsR : Except String (List OwnPod))
    (clientErr : Option String) (f1 f2 : RegFetch) :
    probe_ok "Local Registry" (registry_probe podsR clientErr f1 f2) := by
  unfold registry_probe
  rcases podsR with e | items
  · dsimp only
    exact ⟨rfl, Or.inr (Or.inr (Or.inl rfl)),
      concat_ne_empty _ _ (by decide)⟩
  · dsimp only
    split
    · exact ⟨rfl, Or.inl rfl, by decide⟩
    · rcases clientErr with _ | e
      · dsimp only
        exact registry_try_urls_ok [f1, f2]
      · dsimp only
        exact ⟨rfl, Or.inr (Or.inr (Or.inl rfl)),
          concat_ne_empty _ _ (by decide)⟩

theorem lb_exception_case_ok (e : String) :
    probe_ok "k3d LoadBalancer" (lb_exception_case e) := by
  unfold probe_ok lb_exception_case
  split
  · exact ⟨rfl, Or.inr (Or.inr (Or.inl rfl)), by decide⟩
  · exact ⟨rfl, Or.inl rfl, by decide⟩

theorem lb_probe_ok (c : Except String Int) (d : Except String String) :
    probe_ok "k3d LoadBalancer" (lb_probe c d) := by
  unfold lb_probe
  rcases c with e | result
  · exact lb_exception_case_ok e
  · dsimp only
    split
    · exact ⟨rfl, Or.inl rfl, by decide⟩
    · rcases d with e | addr
      · exact lb_exception_case_ok e
      · dsimp only
        split
        · exact ⟨rfl, Or.inl rfl, by decide⟩
        · exact ⟨rfl, Or.inr (Or.inl rfl), by decide⟩

/-- C4: every run of the service health check returns exactly six
HealthStatus values, in the fixed declaration order, and — whatever the
data sources did — each has a status in the four-value taxonomy and a
non-empty message. -/
theorem services_health_contract (i : ClusterInputs) :
    (get_services_health i).length = 6 ∧
    (get_services_health i).map (fun h => h.service) =
      ["ArgoCD", "Gitea", "Traefik", "cert-manager", "Local Registry",
       "k3d LoadBalancer"] ∧
    ∀ h ∈ get_services_health i,
      (h.status = "healthy" ∨ h.status = "unhealthy" ∨ h.status = "warning" ∨
        h.status = "error") ∧ h.message ≠ "" := by
  have h1 := argocd_probe_ok i.argocd_pods i.argocd_svc
  have h2 := gitea_probe_ok i.gitea_pods i.gitea_svc i.git_db_pods
  have h3 := traefik_probe_ok i.traefik_pods i.traefik_svc
  have h4 := cert_manager_probe_ok i.cert_pods i.cert_webhook_pods
    i.cert_cainjector_pods
  have h5 := registry_probe_ok i.monitoring_pods i.registry_client_err
    i.registry_fetch_localhost i.registry_fetch_internal
  have h6 := lb_probe_ok i.lb_connect i.lb_dns
  refine ⟨rfl, ?_, ?_⟩
  · simp only [get_services_health, List.map_cons, List.map_nil]
    rw [h1.1, h2.1, h3.1, h4.1, h5.1, h6.1]
  · intro h hmem
    simp only [get_services_health, List.mem_cons, List.not_mem_nil,
      or_false] at hmem
    rcases hmem with rfl | rfl | rfl | rfl | rfl | rfl
    · exact h1.2
    · exact h2.2
    · exact h3.2
    · exact h4.2
    · exact h5.2
    · exact h6.2

/-- A run in which every data source raised. -/
def exInputs : ClusterInputs :=
  ⟨.error "boom", .error "boom", .error "boom", .error "boom", .error "boom",
   .error "boom", .error "boom", .error "boom", .error "boom", .error "boom",
   .error "boom", none, .exn "refused", .exn "refused", .error "boom",
   .error "boom"⟩

/-- First status of that run. -/
def exInputsHead : HealthStatus :=
  (get_services_health exInputs).headD ⟨"", "", ""⟩

/-- C4 witness: the contract at the all-failing run. -/
theorem services_health_contract_instance :
    (exInputsHead.status = "healthy" ∨ exInputsHead.status = "unhealthy" ∨
      exInputsHead.status = "warning" ∨ exInputsHead.status = "error") ∧
      exInputsHead.message ≠ "" :=
  (services_health_contract exInputs).2.2 exInputsHead (by decide)

/-- C5 counterexample: the TCP connect returns non-zero (1) and the DNS
call fails by raising (socket.gethostbyname raises on failure; its
error text does not contain the hostname), yet the probe reports
healthy, not unhealthy: the unhealthy branch needs the DNS call to
RETURN a falsy value, which a raising resolver never does. -/
theorem lb_dns_failure_not_unhealthy_cex :
    (lb_probe (.ok 1)
        (.error "[Errno -2] Name or service not known")).status = "healthy" ∧
      (lb_probe (.ok 1)
        (.error "[Errno -2] Name or service not known")).status ≠ "unhealthy" := by
  decide

/-- C5 amended: with a non-zero connect result, the probe is unhealthy
exactly when the DNS call returns an empty (falsy) address; when the
connect attempt or the DNS call raises, the probe is warning if the
gateway hostname text occurs in the error and healthy otherwise. -/
theorem lb_probe_classification :
    (∀ r : Int, r ≠ 0 → (lb_probe (.ok r) (.ok "")).status = "unhealthy") ∧
    (∀ (r : Int) (addr : String), r ≠ 0 → addr ≠ "" →
        (lb_probe (.ok r) (.ok addr)).status = "healthy") ∧
    (∀ dnsR : Except String String,
        (lb_probe (.ok 0) dnsR).status = "healthy") ∧
    (∀ (e : String) (dnsR : Except String String),
        (lb_probe (.error e) dnsR).status =
          if strIn "host.k3d.internal" e then "warning" else "healthy") ∧
    (∀ (r : Int) (e : String), r ≠ 0 →
        (lb_probe (.ok r) (.error e)).status =
          if strIn "host.k3d.internal" e then "warning" else "healthy") := by
  refine ⟨?_, ?_, ?_, ?_, ?_⟩
  · intro r hr
    have hb : (r == 0) = false := by simpa using hr
    simp [lb_probe, hb]
    decide
  · intro r addr hr ha
    have hb : (r == 0) = false := by simpa using hr
    have he : addr.isEmpty = false := by
      rw [Bool.eq_false_iff]
      intro hc
      exact ha ((String.isEmpty_iff addr).mp hc)
    simp [lb_probe, hb, he]
  · intro dnsR
    simp [lb_probe]
  · intro e dnsR
    simp only [lb_probe, lb_exception_case]
    split <;> rfl
  · intro r e hr
    have hb : (r == 0) = false := by simpa using hr
    simp only [lb_probe, hb, Bool.false_eq_true, if_false, lb_exception_case]
    split <;> rfl

/-- C5 amended witness: non-zero connect result with a falsy DNS return
is unhealthy. -/
theorem lb_probe_classification_instance :
    (lb_probe (.ok 1) (.ok "")).status = "unhealthy" :=
  lb_probe_classification.1 1 (by decide)

/-- A cluster of 51 pods, every one of them ready. -/
def ex51Pods : List FullPod :=
  List.replicate 51 ⟨"p", "Running", [true]⟩

/-- C6 counterexample: with 51 ready pods in the cluster, the `/gitops`
endpoint reports running/total = 50/50, not 51/51: it builds its pod
view through the `/pods` handler, whose default limit truncates to the
first 50 pods. -/
theorem gitops_pod_counts_truncation_cex :
    gitops_pod_counts ex51Pods = (50, 50) ∧
    gitops_pod_counts_spec ex51Pods = (51, 51) ∧
    gitops_pod_counts ex51Pods ≠ gitops_pod_counts_spec ex51Pods := by
  refine ⟨?_, by decide, ?_⟩
  · rw [gitops_pod_counts_eq]
    decide
  · rw [gitops_pod_counts_eq]
    decide

/-- C6 amended: the `/gitops` running/total pod counts are computed over
the first 50 pods of the cluster pod list (the `/pods` view's default
limit), a pod counting as ready when its container-status list is
non-empty and every container reports ready; for clusters with at most
50 pods this coincides with the full view. -/
theorem gitops_pod_counts_amended :
    (∀ pods : List FullPod,
        gitops_pod_counts pods =
          (((pods.take 50).filter pod_view_ready).length,
            min 50 pods.length)) ∧
    (∀ pods : List FullPod, pods.length ≤ 50 →
        gitops_pod_counts pods =
          ((pods.filter pod_view_ready).length, pods.length)) := by
  refine ⟨gitops_pod_counts_eq, ?_⟩
  intro pods h
  rw [gitops_pod_counts_eq, List.take_of_length_le h, Nat.min_eq_right h]

/-- C6 amended witness: a single-pod cluster is counted in full. -/
theorem gitops_pod_counts_amended_instance :
    gitops_pod_counts [⟨"p", "Running", [true]⟩] = (1, 1) :=
  Eq.trans (gitops_pod_counts_amended.2 [⟨"p", "Running", [true]⟩] (by decide))
    (by decide)

/-- C7: the remote process health classification — unreachable
supervisor yields error; any Failed or Crashed process forces unhealthy
with a message naming the failed processes; otherwise all-Running
yields healthy and anything else yields degraded with a running/total
message. -/
theorem process_health_classification :
    (get_process_health none = ("error", "Process-compose not available")) ∧
    (∀ procs : List PCProcess,
      ((∃ p ∈ procs, p.status = "Failed" ∨ p.status = "Crashed") →
        get_process_health (some procs) =
          ("unhealthy",
            toString (procs.filter (fun p =>
                p.status == "Failed" || p.status == "Crashed")).length ++
              " processes failed: " ++
              String.intercalate ", " ((procs.filter (fun p =>
                p.status == "Failed" || p.status == "Crashed")).map
                  (fun p => p.name)))) ∧
      ((∀ p ∈ procs, p.status ≠ "Failed" ∧ p.status ≠ "Crashed") →
        (procs.filter (fun p => p.status == "Running")).length =
            procs.length →
        get_process_health (some procs) =
          ("healthy",
            "All " ++ toString procs.length ++ " processes running")) ∧
      ((∀ p ∈ procs, p.status ≠ "Failed" ∧ p.status ≠ "Crashed") →
        (procs.filter (fun p => p.status == "Running")).length ≠
            procs.length →
        get_process_health (some procs) =
          ("degraded",
            toString (procs.filter (fun p => p.status == "Running")).length ++
              "/" ++ toString procs.length ++ " processes running"))) := by
  refine ⟨rfl, ?_⟩
  intro procs
  refine ⟨?_, ?_, ?_⟩
  · intro h
    obtain ⟨p, hmem, hp⟩ := h
    have hpos :
        0 < (procs.filter (fun p =>
          p.status == "Failed" || p.status == "Crashed")).length := by
      rw [List.length_pos]
      intro hnil
      have := List.filter_eq_nil_iff.mp hnil p hmem
      simp only [Bool.or_eq_true, beq_iff_eq] at this
      exact this (by tauto)
    simp only [get_process_health, if_pos hpos]
  · intro hnf hall
    have hzero :
        (procs.filter (fun p =>
          p.status == "Failed" || p.status == "Crashed")) = [] := by
      rw [List.filter_eq_nil_iff]
      intro p hmem
      simp only [Bool.or_eq_true, beq_iff_eq]
      exact fun hc => hc.elim (hnf p hmem).1 (hnf p hmem).2
    simp only [get_process_health, hzero, List.length_nil, lt_irrefl,
      if_false, beq_iff_eq, hall, if_pos, if_true]
  · intro hnf hne
    have hzero :
        (procs.filter (fun p =>
          p.status == "Failed" || p.status == "Crashed")) = [] := by
      rw [List.filter_eq_nil_iff]
      intro p hmem
      simp only [Bool.or_eq_true, beq_iff_eq]
      exact fun hc => hc.elim (hnf p hmem).1 (hnf p hmem).2
    have hb : ((procs.filter (fun p => p.status == "Running")).length ==
        procs.length) = false := by simpa using hne
    simp only [get_process_health, hzero, List.length_nil, lt_irrefl,
      if_false, hb, Bool.false_eq_true]

/-- C7 witness: one Crashed process among Running ones is unhealthy. -/
theorem process_health_classification_instance :
    get_process_health (some [⟨"api", "Crashed"⟩, ⟨"web", "Running"⟩]) =
      ("unhealthy", "1 processes failed: api") := by
  have h := (process_health_classification.2
    [⟨"api", "Crashed"⟩, ⟨"web", "Running"⟩]).1
    ⟨⟨"api", "Crashed"⟩, by decide, Or.inr rfl⟩
  rw [h]
  decide

/-- C8 (code bug): restarting a process whose name is outside the
allow-list makes the manager return a rejection dict without raising,
but the endpoint's HTTPException(400) is itself caught by the same
handler's blanket `except Exception`, which re-raises it as a 500 — the
rejection is surfaced as a 500, not the intended 400. -/
theorem restart_disallowed_surfaces_500 :
    manager_restart_process 4242 (.ok "bash") false =
      ("error", "Restarting bash not allowed") ∧
    restart_process_endpoint 4242 (.ok "bash") false =
      .error (500, "400: Restarting bash not allowed") := by
  exact ⟨rfl, rfl⟩

/-- C9: whatever the six probes returned, the components mapping has
exactly the six fixed role keys in order, and every value is either the
none sentinel or a probe result whose service name matches the role —
never an error. -/
theorem components_fixed_keys (i : ClusterInputs) :
    ((gitops_components (get_services_health i)).map Prod.fst =
      ["gitops", "git_repository", "ingress", "tls_manager", "registry",
       "loadbalancer"]) ∧
    ∀ p ∈ gitops_components (get_services_health i),
      p.2 = none ∨ ∃ h, p.2 = some h ∧ h.service = role_service_name p.1 := by
  refine ⟨rfl, ?_⟩
  intro p hp
  have hfind : ∀ (name : String) (l : List HealthStatus),
      (l.find? (fun s => s.service == name) = none) ∨
        ∃ h, l.find? (fun s => s.service == name) = some h ∧
          h.service = name := by
    intro name l
    cases hf : l.find? (fun s => s.service == name) with
    | none => exact Or.inl rfl
    | some h =>
      refine Or.inr ⟨h, rfl, ?_⟩
      have := List.find?_some hf
      simpa using this
  simp only [gitops_components, List.mem_cons, List.not_mem_nil,
    or_false] at hp
  rcases hp with rfl | rfl | rfl | rfl | rfl | rfl
  · exact hfind "ArgoCD" _
  · exact hfind "Gitea" _
  · exact hfind "Traefik" _
  · exact hfind "cert-manager" _
  · exact hfind "Local Registry" _
  · exact hfind "k3d LoadBalancer" _

/-- First entry of the components mapping for the all-failing run. -/
def exComponentsHead : String × Option HealthStatus :=
  (gitops_components (get_services_health exInputs)).headD ("", none)

/-- C9 witness: the mapping property at the all-failing run. -/
theorem components_fixed_keys_instance :
    exComponentsHead.2 = none ∨
      ∃ h, exComponentsHead.2 = some h ∧
        h.service = role_service_name exComponentsHead.1 :=
  (components_fixed_keys exInputs).2 exComponentsHead (by decide)

/-- C10 counterexample: with no own pods, a working HTTP client and both
candidate URLs raising a connection error, the probe does emit a
warning, but its message is the fixed inconclusive text: the per-URL
exception text is swallowed, not embedded truncated to 80 characters. -/
theorem registry_fallback_message_cex :
    (registry_probe (.ok []) none (.exn "connection refused")
        (.exn "connection refused")).status = "warning" ∧
    strIn "connection refused"
      (registry_probe (.ok []) none (.exn "connection refused")
        (.exn "connection refused")).message = false := by
  decide

/-- Acceptance test of the registry fallback loop: HTTP 200 or 401. -/
def reg_accepts : RegFetch → Bool
  | .resp code => code == 200 || code == 401
  | .exn _ => false

/-- A non-accepted fetch outcome moves the loop to the next URL. -/
theorem registry_try_urls_skip (f : RegFetch) (rest : List RegFetch)
    (h : reg_accepts f = false) :
    registry_try_urls (f :: rest) = registry_try_urls rest := by
  cases f with
  | resp code =>
    show (if code == 200 || code == 401 then _ else registry_try_urls rest) = _
    simp only [reg_accepts] at h
    rw [if_neg]
    simp [h]
  | exn m => rfl

/-- C10 amended: when the image-prefix check does not succeed and no
candidate URL is accepted, the probe is a warning, never an error, with
the fixed inconclusive message (the per-URL exception text is not
embedded); an exception escaping the URL loop — listing the monitor
pods, or setting up the HTTP client — yields a warning whose message
embeds the error text truncated to 80 characters. -/
theorem registry_probe_warning_policy :
    (∀ (items : List OwnPod) (f1 f2 : RegFetch),
        registry_working items = false →
        reg_accepts f1 = false → reg_accepts f2 = false →
        registry_probe (.ok items) none f1 f2 =
          ⟨"Local Registry", "warning",
            "Registry not directly accessible (may still be working)"⟩) ∧
    (∀ (e : String) (clientErr : Option String) (f1 f2 : RegFetch),
        registry_probe (.error e) clientErr f1 f2 =
          ⟨"Local Registry", "warning",
            "Registry check inconclusive: " ++ e.take 80⟩) ∧
    (∀ (items : List OwnPod) (e : String) (f1 f2 : RegFetch),
        registry_working items = false →
        registry_probe (.ok items) (some e) f1 f2 =
          ⟨"Local Registry", "warning",
            "Registry check inconclusive: " ++ e.take 80⟩) := by
  refine ⟨?_, ?_, ?_⟩
  · intro items f1 f2 hw h1 h2
    show (if registry_working items then _ else registry_try_urls [f1, f2]) = _
    rw [if_neg (by simp [hw]), registry_try_urls_skip f1 _ h1,
      registry_try_urls_skip f2 _ h2]
    rfl
  · intro e clientErr f1 f2
    rfl
  · intro items e f1 f2 hw
    show (if registry_working items then _ else _) = _
    rw [if_neg (by simp [hw])]

/-- C10 amended witness: no own pods and two raising URL fetches give
the fixed inconclusive warning. -/
theorem registry_probe_warning_policy_instance :
    registry_probe (.ok []) none (.exn "timed out") (.exn "timed out") =
      ⟨"Local Registry", "warning",
        "Registry not directly accessible (may still be working)"⟩ :=
  registry_probe_warning_policy.1 [] (.exn "timed out") (.exn "timed out")
    (by decide) (by decide) (by decide)
